import Mathlib

/-!
Verification of the lexin-backend legal-document ingestion and search core.

The definitions below are a shallow embedding of the Python sources:

* `services/LegalDocumentService.py` — the text extractor
  (`is_all_uppercase_sentence`, `extract_text_pdf`), the ingestion pipeline
  (`parse_single_file`, `parse_files_in_metadata`,
  `upload_files_to_gcs_in_parallel`, `upload_single_file_to_gcs`,
  `index_legal_document`, `upload_legal_document_helper`,
  `cleanup_failed_upload`, `parse_legal_document_and_metadata_zip`),
  the search endpoint (`search_legal_document`) and the bookmark delete
  (`get_delete_legal_document_bookmark_by_document_id`);
* `services/ChatService.py` — the retrieval query builder
  (`search_elasticsearch`);
* `internal/storage.py` — the blob store adapter (`upload_file`);
* `models/LegalDocumentModel.py` — the validated document shape.

Modelling conventions.  PDF byte streams are modelled by `Pdf`:
`none` is a stream `fitz.open` rejects, `some pages` a parsed document whose
pages are word lists; a fitz word tuple `(x0, y0, x1, y1, text, ...)` is
modelled by the three components the code reads (`x0`, bottom coordinate
`y1`, `text`), with the float coordinates modelled as integers.  Python
exceptions become `Except` / `Option` results.  Thread pools submit one task
per item and collect results with `as_completed`, so a completed-result list
is some permutation of the submitted-order list; theorems about
order-sensitive code quantify over any permutation of the canonical
(submission-order) list, while the deterministic pipeline functions below
use submission order.  Elasticsearch and the relational store are modelled
by explicit state values; relevance scoring is modelled for exactly the two
query shapes this code base builds.
-/

namespace Lexin

/-! ## Text extractor: `is_all_uppercase_sentence` -/

/-- Character class `[A-Z]` of the regex in `is_all_uppercase_sentence`. -/
def upperAZ (c : Char) : Bool := 'A' ≤ c && c ≤ 'Z'

/-- Character class `[0-9]`. -/
def digit09 (c : Char) : Bool := '0' ≤ c && c ≤ '9'

/-- Python regex word class `\w` (ASCII fragment): alphanumeric or
underscore.  The Python engine also counts non-ASCII letters and digits as
word characters; the embedding models the ASCII fragment, which is exact on
ASCII inputs. -/
def pythonWordChar (c : Char) : Bool := c.isAlphanum || c == '_'

/-- One character of the class `[A-Z0-9\W]` used by
`is_all_uppercase_sentence`: an uppercase ASCII letter, an ASCII digit, or a
non-word character. -/
def upperClassChar (c : Char) : Bool := upperAZ c || digit09 c || !pythonWordChar c

/-- Embedding of `is_all_uppercase_sentence` (LegalDocumentService.py:61):
`re.fullmatch` of `^(?=.*[A-Z])[A-Z0-9\W]+$`.  The lookahead `(?=.*[A-Z])`
requires an `[A-Z]` reachable from the start without crossing a newline
(`.` does not match newline), and `[A-Z0-9\W]+` requires the whole (then
necessarily nonempty) string to consist of class characters. -/
def is_all_uppercase_sentence (s : String) : Bool :=
  (s.data.takeWhile (fun c => c != '\n')).any upperAZ && s.data.all upperClassChar

/-- Embedding of the classification expression
`"title" if is_all_uppercase_sentence(text) else "paragraph"`
(LegalDocumentService.py:98 and :107). -/
def classifyLine (t : String) : String :=
  if is_all_uppercase_sentence t then "title" else "paragraph"

/-! ## Text extractor: `extract_text_pdf` -/

/-- Model of one fitz word tuple: the code reads `w[0]` (left x), `w[3]`
(bottom y) and `w[4]` (the text). -/
structure Word where
  x0 : Int
  bottom : Int
  text : String
deriving DecidableEq, Repr

/-- One page of a parsed PDF: the word list returned by
`page.get_text("words", sort=True)`, already sorted vertically then
horizontally. -/
abbrev Page := List Word

/-- A PDF byte stream: `none` when `fitz.open` raises (not a parseable
PDF), otherwise the page list. -/
abbrev Pdf := Option (List Page)

/-- Stable insertion step for `line.sort(key=lambda w: w[0])`: a word is
placed before the first already-present word with a strictly larger or
equal key that it precedes, keeping Python sort stability. -/
def insertByX (w : Word) : List Word → List Word
  | [] => [w]
  | v :: vs => if w.x0 ≤ v.x0 then w :: v :: vs else v :: insertByX w vs

/-- Embedding of `line.sort(key=lambda w: w[0])`: a stable sort of the line
words by left coordinate. -/
def sortByX (l : List Word) : List Word := l.foldr insertByX []

/-- Embedding of closing a line: `" ".join([w[4] for w in line])` after the
left-to-right sort (LegalDocumentService.py:93-94 and :104). -/
def lineText (line : List Word) : String :=
  String.intercalate " " ((sortByX line).map Word.text)

/-- Embedding of the per-page loop over `words[1:]`
(LegalDocumentService.py:83-104).  The current line is carried as its most
recently appended word (`line[-1]`) plus the earlier words in reverse
order; a word whose bottom coordinate is within 3 units of the previous
word's stays in the line, otherwise the line is closed and a new one starts.
The final open line is flushed.  Returns the closed line texts in order. -/
def pageLoop : Word × List Word → List Word → List String
  | line, [] => [lineText (line.2.reverse ++ [line.1])]
  | (w0, ws0), w :: rest =>
    if (w0.bottom - w.bottom).natAbs ≤ 3 then
      pageLoop (w, w0 :: ws0) rest
    else
      lineText (ws0.reverse ++ [w0]) :: pageLoop (w, []) rest

/-- Embedding of the page loop of `extract_text_pdf`
(LegalDocumentService.py:79-110).  Each page starts with `line = [words[0]]`;
on a page with no words that subscript raises `IndexError`, which the
function's blanket `except Exception: pass` swallows, so extraction stops
and every later page is dropped. -/
def extractLoop : List Page → List String
  | [] => []
  | p :: ps =>
    match p with
    | [] => []
    | w :: ws => pageLoop (w, []) ws ++ extractLoop ps

/-- The two parallel output lists of `extract_text_pdf`. -/
structure ExtractResult where
  content_type : List String
  content_text : List String
deriving DecidableEq, Repr

/-- Embedding of the paired appends
`content_type_list.append(text_type)` / `content_text_list.append(text)`
performed for each closed line (LegalDocumentService.py:100-101, 109-110). -/
def addLine (acc : ExtractResult) (text : String) : ExtractResult :=
  { content_type := acc.content_type ++ [classifyLine text]
    content_text := acc.content_text ++ [text] }

/-- Embedding of `extract_text_pdf` (LegalDocumentService.py:69-121): on an
unparseable stream `fitz.open` raises, the handler swallows the error and
the (still empty) accumulators are returned; otherwise every line text
produced by the page loop is classified and appended to both lists. -/
def extract_text_pdf (pdf : Pdf) : ExtractResult :=
  match pdf with
  | none => ⟨[], []⟩
  | some ps => (extractLoop ps).foldl addLine ⟨[], []⟩

/-! ## Ingestion pipeline -/

/-- Deployment configuration read from environment variables:
`GOOGLE_CLOUD_STORAGE_URI`, `GOOGLE_BUCKET_NAME`,
`GOOGLE_BUCKET_LEGAL_DOCUMENT_FOLDER_NAME`. -/
structure Config where
  uri : String
  bucket : String
  folder : String
deriving DecidableEq, Repr

/-- A zip archive (the manifest entry already removed, as in
`get_upload_legal_document`): an association of member filenames to their
byte streams. -/
abbrev Zip := List (String × Pdf)

/-- Member lookup, `zip_file.open(name)`: `none` models the `KeyError` the
zipfile module raises for a missing member. -/
def zipLookup (z : Zip) (name : String) : Option Pdf :=
  (z.find? (fun e => e.1 == name)).map (fun e => e.2)

/-- Message of the `KeyError` raised by `zipfile` for a missing member. -/
def zipKeyErrorMsg (name : String) : String :=
  "There is no item named " ++ name ++ " in the archive"

/-- Result of `parse_single_file`: the filename, and the two extraction
lists.  The raw bytes the Python dict also carries only feed the upload
call, whose effect is modelled by the blob name, so they are not repeated
here. -/
structure ParseEntry where
  filename : String
  content_type : List String
  content_text : List String
deriving DecidableEq, Repr

/-- Embedding of `parse_single_file` (LegalDocumentService.py:405-416):
open the member (raising `KeyError` when absent) and run the extractor. -/
def parse_single_file (z : Zip) (name : String) : Except String ParseEntry :=
  match zipLookup z name with
  | none => .error (zipKeyErrorMsg name)
  | some pdf =>
    let ex := extract_text_pdf pdf
    .ok { filename := name, content_type := ex.content_type, content_text := ex.content_text }

/-- Embedding of `parse_files_in_metadata` (LegalDocumentService.py:370-402)
in submission order: one task per metadata filename; the first failing
`future.result()` re-raises.  The `as_completed` collection order is a
permutation of this list; order-sensitive claims quantify over that
permutation. -/
def parse_files_in_metadata (z : Zip) : List String → Except String (List ParseEntry)
  | [] => .ok []
  | f :: fs =>
    match parse_single_file z f with
    | .error e => .error e
    | .ok p =>
      match parse_files_in_metadata z fs with
      | .error e => .error e
      | .ok ps => .ok (p :: ps)

/-- Result dict of `upload_single_file_to_gcs`. -/
structure SingleUpload where
  gcs_url : String
  blob_name : String
  content_type : List String
  content_text : List String
deriving DecidableEq, Repr

/-- The resource URL `upload_file` returns (internal/storage.py:102):
`GOOGLE_CLOUD_STORAGE_URI/GOOGLE_BUCKET_NAME/<blob name>`. -/
def gcsUrl (cfg : Config) (blobName : String) : String :=
  cfg.uri ++ "/" ++ cfg.bucket ++ "/" ++ blobName

/-- Embedding of `upload_single_file_to_gcs`
(LegalDocumentService.py:450-467): the deterministic blob name
`<folder>/<filename>` is uploaded and the returned URL collected together
with the file's extraction lists. -/
def upload_single_file_to_gcs (cfg : Config) (p : ParseEntry) : SingleUpload :=
  let blobName := cfg.folder ++ "/" ++ p.filename
  { gcs_url := gcsUrl cfg blobName
    blob_name := blobName
    content_type := p.content_type
    content_text := p.content_text }

/-- The four accumulator lists of `upload_files_to_gcs_in_parallel`. -/
structure UploadArrays where
  resource_urls : List String
  blob_list : List String
  content_type_list : List (List String)
  content_text_list : List (List String)
deriving DecidableEq, Repr

/-- The four appends performed per completed upload future
(LegalDocumentService.py:432-438), over a given completion-order list. -/
def uploadArraysOf (us : List SingleUpload) : UploadArrays :=
  { resource_urls := us.map (fun u => u.gcs_url)
    blob_list := us.map (fun u => u.blob_name)
    content_type_list := us.map (fun u => u.content_type)
    content_text_list := us.map (fun u => u.content_text) }

/-- Embedding of `upload_files_to_gcs_in_parallel`
(LegalDocumentService.py:419-447) in submission order; again `as_completed`
may deliver any permutation, which order-sensitive claims quantify over. -/
def upload_files_to_gcs_in_parallel (cfg : Config) (pr : List ParseEntry) : UploadArrays :=
  uploadArraysOf (pr.map (upload_single_file_to_gcs cfg))

/-- Modelled subset of one manifest metadata record.  `LegalDocumentCreate`
(models/LegalDocumentModel.py) declares `id : str` and `title : str` as
required fields, so a record missing either fails pydantic validation;
`filenames` drives the per-file fan-out.  The remaining metadata fields are
carried through unchanged by the pipeline and play no role in the claims. -/
structure Metadata where
  id : Option String
  title : Option String
  filenames : List String
deriving DecidableEq, Repr

/-- The assembled `document_data` dict (LegalDocumentService.py:351-356):
manifest fields plus the three arrays produced by the upload stage. -/
structure DocumentData where
  id : Option String
  title : Option String
  filenames : List String
  resource_urls : List String
  content_type : List (List String)
  content_text : List (List String)
deriving DecidableEq, Repr

/-- Embedding of the `document_data = {**metadata, ...}` assembly. -/
def documentDataOf (meta : Metadata) (up : UploadArrays) : DocumentData :=
  { id := meta.id
    title := meta.title
    filenames := meta.filenames
    resource_urls := up.resource_urls
    content_type := up.content_type_list
    content_text := up.content_text_list }

/-- An `HTTPException`: status code and detail string. -/
structure HErr where
  status : Nat
  detail : String
deriving DecidableEq, Repr

/-- Python `str(HTTPException)` is `"<status>: <detail>"`. -/
def httpExceptionStr (e : HErr) : String := toString e.status ++ ": " ++ e.detail

/-- Elasticsearch as seen by `index_legal_document`: the set of already
indexed ids (consulted by `es_client.exists`) and, when the write call
itself fails, the `ApiError` it raises. -/
structure EsState where
  existingIds : List String
  writeError : Option HErr
deriving Repr

/-- Pydantic validation of `LegalDocumentCreate(**document_data)` over the
modelled fields: the required `id` and `title` strings must be present. -/
def validateDocument (d : DocumentData) : Option String :=
  match d.id, d.title with
  | some slug, some _ => some slug
  | _, _ => none

/-- Embedding of `index_legal_document` (LegalDocumentService.py:124-159):
validation failure raises 422; an existing id raises 422 with the
duplicate message; an `ApiError` from the write is re-raised as an
`HTTPException` with the error's status; otherwise the document is indexed
under its slug id, which the ES response echoes back. -/
def index_legal_document (es : EsState) (d : DocumentData) : Except HErr String :=
  match validateDocument d with
  | none => .error ⟨422, "validation error for LegalDocumentCreate"⟩
  | some slug =>
    if slug ∈ es.existingIds then
      .error ⟨422, "A document with id " ++ slug ++ " already exists."⟩
    else
      match es.writeError with
      | some e => .error e
      | none => .ok slug

/-- Per-document response dict: `build_failed_upload_response` /
`build_succeeded_upload_response` (LegalDocumentService.py:479-498). -/
structure UploadResponse where
  es_id : Option String
  title : String
  filenames : List String
  resource_urls : Option (List String)
  is_success : Bool
  message : String
deriving DecidableEq, Repr

/-- Embedding of `build_failed_upload_response`: `metadata.get("title",
"Unknown Title")` and `metadata.get("filenames", [])`. -/
def build_failed_upload_response (title : Option String) (filenames : List String)
    (message : String) : UploadResponse :=
  { es_id := none
    title := title.getD "Unknown Title"
    filenames := filenames
    resource_urls := none
    is_success := false
    message := message }

/-- Embedding of `build_succeeded_upload_response`; on this path validation
has succeeded, so `metadata["title"]` is present. -/
def build_succeeded_upload_response (d : DocumentData) (esId : String) : UploadResponse :=
  { es_id := some esId
    title := d.title.getD "Unknown Title"
    filenames := d.filenames
    resource_urls := some d.resource_urls
    is_success := true
    message := "Metadata upload succeeded." }

/-- Embedding of `cleanup_failed_upload` (LegalDocumentService.py:470-476):
a delete is attempted for every listed blob; a failing delete is swallowed
by the `try/except: continue` and the loop proceeds, so every blob is
attempted regardless.  Returns the attempted blob names. -/
def cleanup_failed_upload (blobs : List String) : List String := blobs

/-- Observable outcome of `upload_legal_document_helper`: the response dict
plus the side effects on the blob store (blob names uploaded, blob names
whose deletion was attempted by cleanup). -/
structure HelperOutcome where
  response : UploadResponse
  uploadedBlobs : List String
  deletedBlobs : List String
deriving DecidableEq, Repr

/-- Embedding of `upload_legal_document_helper`
(LegalDocumentService.py:334-367): parse all files (any parse exception
yields a failed response before anything is uploaded); upload every file;
assemble `document_data`; index it.  An indexing `HTTPException` with
status 422 yields a failed response with no cleanup; any other status
triggers `cleanup_failed_upload` of the uploaded blobs and a failed
response; success yields the succeeded response. -/
def upload_legal_document_helper (cfg : Config) (es : EsState) (meta : Metadata)
    (z : Zip) : HelperOutcome :=
  match parse_files_in_metadata z meta.filenames with
  | .error e =>
    { response := build_failed_upload_response meta.title meta.filenames e
      uploadedBlobs := []
      deletedBlobs := [] }
  | .ok pr =>
    let up := upload_files_to_gcs_in_parallel cfg pr
    let d := documentDataOf meta up
    match index_legal_document es d with
    | .error e =>
      if e.status == 422 then
        { response := build_failed_upload_response d.title d.filenames (httpExceptionStr e)
          uploadedBlobs := up.blob_list
          deletedBlobs := [] }
      else
        { response := build_failed_upload_response d.title d.filenames (httpExceptionStr e)
          uploadedBlobs := up.blob_list
          deletedBlobs := cleanup_failed_upload up.blob_list }
    | .ok slug =>
      { response := build_succeeded_upload_response d slug
        uploadedBlobs := up.blob_list
        deletedBlobs := [] }

/-- An element of the `failed_upload` list.  The response dicts are
appended by `failed_upload_list.append(...)`; the files-without-metadata
loop instead runs `failed_upload_list.extend({filename: "No metadata
detected."})`, and iterating a dict yields its keys, so that call appends
the bare filename string and discards the reason. -/
inductive FailedEntry where
  | response (r : UploadResponse)
  | bareName (s : String)
deriving DecidableEq, Repr

/-- Return value of `parse_legal_document_and_metadata_zip`. -/
structure ParseZipResult where
  failed_upload : List FailedEntry
  successful_upload : List UploadResponse
deriving DecidableEq, Repr

/-- Embedding of `parse_legal_document_and_metadata_zip`
(LegalDocumentService.py:292-331) over the submission order of the
per-document tasks: partition the per-document outcomes by `is_success`,
collect every `filenames` list of every outcome, and append one bare-name
failed entry for every zip member never referenced by any metadata record
(the Python set difference is modelled as a duplicate-free filter in zip
order; set iteration order is arbitrary, and no claim depends on it). -/
def parse_legal_document_and_metadata_zip (cfg : Config) (es : EsState)
    (zipNames : List String) (metas : List Metadata) (z : Zip) : ParseZipResult :=
  let outcomes := metas.map (fun m => upload_legal_document_helper cfg es m z)
  let filenamesInMeta := (outcomes.map (fun o => o.response.filenames)).flatten
  let succeeded := (outcomes.filter (fun o => o.response.is_success)).map (fun o => o.response)
  let failed := (outcomes.filter (fun o => !o.response.is_success)).map
    (fun o => FailedEntry.response o.response)
  let noMeta := (zipNames.filter (fun n => !filenamesInMeta.contains n)).dedup
  { failed_upload := failed ++ noMeta.map FailedEntry.bareName
    successful_upload := succeeded }

/-! ## Search and ranking

Elasticsearch itself is external; its scoring is modelled for exactly the
two query shapes built by this code base.  An `EsDoc` carries the fields
those queries read, together with `baseScore`, an oracle for the text-match
(`query_string` / `bool.should`) score the engine assigns the document for
the query under consideration; `baseScore = 0` means the document does not
match.  `ditetapkan_days_ago` is the distance in days from "now" to the
document's `ditetapkan_tanggal` (the decay origin), and `fields` gives the
numeric sort value of any other field (missing fields sort as 0). -/

structure EsDoc where
  id : String
  jenis_bentuk_peraturan : String
  status : String
  ditetapkan_days_ago : Int
  baseScore : ℚ
  fields : List (String × ℚ)
deriving DecidableEq, Repr

/-- One clause of the `bool.should` list in the chat retrieval query:
either a plain `match` on a field or a `nested` match on `path.field`. -/
inductive MatchClause where
  | matchField (field : String) (q : String)
  | nestedMatch (path : String) (field : String) (q : String)
deriving DecidableEq, Repr

/-- One entry of the `functions` array of a `function_score` query.  The
linear decay carries its scale and offset in days and its decay factor; the
origin is "now", reflected in `EsDoc.ditetapkan_days_ago` being measured
from now.  A filtered weight applies only to documents matching the term
filter. -/
inductive ScoreFunction where
  | linearDecay (field : String) (scaleDays offsetDays decay : ℚ)
  | filterWeight (field : String) (value : String) (weight : ℚ)
deriving DecidableEq, Repr

/-- The two query shapes the code base builds. -/
inductive EsQuery where
  | queryString (q : String) (fields : List String)
  | functionScore (clauses : List MatchClause) (functions : List ScoreFunction)
      (boost_mode : String)
deriving DecidableEq, Repr

/-- Term filter semantics over the modelled keyword fields. -/
def termMatches (d : EsDoc) (field value : String) : Bool :=
  (field == "jenis_bentuk_peraturan" && d.jenis_bentuk_peraturan == value) ||
    (field == "status" && d.status == value)

/-- Elasticsearch linear decay
`max(0, (s - max(0, |fieldvalue - origin| - offset)) / s)` with
`s = scale / (1 - decay)`; for scale 365d, offset 365d, decay 0.5 this is 1
within 365 days of now and reaches 0.5 at 730 days. -/
def linearDecayValue (scaleDays offsetDays decay : ℚ) (daysAgo : Int) : ℚ :=
  let s := scaleDays / (1 - decay)
  max 0 ((s - max 0 (|(daysAgo : ℚ)| - offsetDays)) / s)

/-- Value a score function contributes on a document: `none` when a
filtered function's filter does not match (the function then does not
apply). -/
def scoreFunctionValue (d : EsDoc) : ScoreFunction → Option ℚ
  | .linearDecay _ scaleDays offsetDays decay =>
    some (linearDecayValue scaleDays offsetDays decay d.ditetapkan_days_ago)
  | .filterWeight field value w =>
    if termMatches d field value then some w else none

/-- Combined value of the `functions` array under the default
`score_mode = "multiply"`: the product of the applying functions (1 when
none applies). -/
def functionsValue (fns : List ScoreFunction) (d : EsDoc) : ℚ :=
  fns.foldl (fun acc f => match scoreFunctionValue d f with
    | some v => acc * v
    | none => acc) 1

/-- Relevance score of a document under a query: a plain `query_string`
scores the base text match; a `function_score` combines the base score of
its inner query with the functions value — under `boost_mode = "avg"` by
averaging, under the default by multiplication. -/
def scoreUnder (q : EsQuery) (d : EsDoc) : ℚ :=
  match q with
  | .queryString _ _ => d.baseScore
  | .functionScore _ fns mode =>
    let fv := functionsValue fns d
    if mode == "avg" then (d.baseScore + fv) / 2 else d.baseScore * fv

/-- A document is a hit iff its text query matched. -/
def matchesQuery (d : EsDoc) : Bool := 0 < d.baseScore

/-- Stable descending insertion: a document goes before the first
already-present document whose key is at most its own.  Earlier documents
are inserted later (`foldr`), so ties keep index order, as Elasticsearch
ties do. -/
def insertHitDesc (key : EsDoc → ℚ) (d : EsDoc) : List EsDoc → List EsDoc
  | [] => [d]
  | e :: es => if key e ≤ key d then d :: e :: es else e :: insertHitDesc key d es

/-- Stable sort of the hit list by descending key. -/
def sortHitsDesc (key : EsDoc → ℚ) (l : List EsDoc) : List EsDoc :=
  l.foldr (insertHitDesc key) []

/-- Hits of a query over a corpus: the matching documents in descending
score order. -/
def executeQueryHits (q : EsQuery) (corpus : List EsDoc) : List EsDoc :=
  sortHitsDesc (scoreUnder q) (corpus.filter matchesQuery)

/-- The search parameter dictionary assembled by `search_legal_document`
(LegalDocumentService.py:747-803).  `source.includes` and the two `terms`
aggregations are carried verbatim; the aggregation buckets themselves are
not modelled (no claim mentions them). -/
structure SearchParameters where
  from_ : Nat
  size : Nat
  query : EsQuery
  sourceIncludes : List String
  aggsFields : List String
  post_filter : List (String × String)
  sort : Option String
deriving DecidableEq, Repr

/-- Embedding of the `post_filter` construction
(LegalDocumentService.py:783-799): one `term` per requested category, plus
the status term, all ORed in one `bool.should`; a `None` or empty category
list and a `None` status contribute nothing (Python falsiness), and the
(possibly clause-free) filter is always attached. -/
def searchPostFilter (jenis : Option (List String)) (status : Option String) :
    List (String × String) :=
  (match jenis with
    | some js => js.map (fun j => ("jenis_bentuk_peraturan", j))
    | none => []) ++
  (match status with
    | some s => [("status", s)]
    | none => [])

/-- Embedding of the parameter assembly of `search_legal_document`: offset
`(page - 1) * size`, a `query_string` over all fields, the source includes,
the two aggregations, the post filter, and a descending sort on the given
field (Python default `"_score"`; a `None` sort adds no sort key). -/
def search_legal_document_parameters (query : String) (page size : Nat)
    (jenis : Option (List String)) (status : Option String) (sort : Option String) :
    SearchParameters :=
  { from_ := (page - 1) * size
    size := size
    query := .queryString query ["*"]
    sourceIncludes := ["title", "jenis_bentuk_peraturan", "pemrakarsa", "nomor",
      "tahun", "tentang", "tempat_penetapan", "ditetapkan_tanggal", "status"]
    aggsFields := ["jenis_bentuk_peraturan", "status"]
    post_filter := searchPostFilter jenis status
    sort := sort }

/-- Numeric sort value of a document field (0 when absent). -/
def fieldVal (d : EsDoc) (f : String) : ℚ :=
  ((d.fields.find? (fun e => e.1 == f)).map (fun e => e.2)).getD 0

/-- Sort key requested by the parameters: `"_score"` (or no sort key at
all, the engine default) sorts by relevance score, any other field by its
value, always descending. -/
def searchSortKey (p : SearchParameters) (d : EsDoc) : ℚ :=
  match p.sort with
  | some f => if f == "_score" then scoreUnder p.query d else fieldVal d f
  | none => scoreUnder p.query d

/-- A document passes the post filter iff the filter has no clause or some
term matches. -/
def postFilterMatches (ts : List (String × String)) (d : EsDoc) : Bool :=
  ts.isEmpty || ts.any (fun t => termMatches d t.1 t.2)

/-- Pagination dictionary returned by `search_legal_document` (hits and the
pagination arithmetic; aggregations omitted as above). -/
structure SearchResult where
  page : Nat
  size : Nat
  total_hits : Nat
  total_pages : Nat
  hits : List EsDoc
deriving DecidableEq, Repr

/-- Execution of the assembled parameters against a corpus: rank the
matching documents by the descending sort key, apply the post filter, then
slice `[from_, from_ + size)`; `total_pages = ceil(total_hits / size)`. -/
def runSearchParameters (p : SearchParameters) (page : Nat) (corpus : List EsDoc) :
    SearchResult :=
  let ranked := sortHitsDesc (searchSortKey p) (corpus.filter matchesQuery)
  let filtered := ranked.filter (postFilterMatches p.post_filter)
  let total := filtered.length
  { page := page
    size := p.size
    total_hits := total
    total_pages := (total + p.size - 1) / p.size
    hits := (filtered.drop p.from_).take p.size }

/-- Embedding of `search_legal_document` (LegalDocumentService.py:726-829). -/
def search_legal_document (corpus : List EsDoc) (query : String) (page size : Nat)
    (jenis : Option (List String)) (status : Option String) (sort : Option String) :
    SearchResult :=
  runSearchParameters
    (search_legal_document_parameters query page size jenis status sort) page corpus

/-- The `bool.should` clause list of the chat retrieval query
(ChatService.py:183-246): four plain matches plus one nested title match
per relation list. -/
def chatMatchClauses (q : String) : List MatchClause :=
  [ .matchField "title" q
  , .matchField "jenis_bentuk_peraturan" q
  , .matchField "tentang" q
  , .matchField "content_text" q
  , .nestedMatch "dasar_hukum" "dasar_hukum.title" q
  , .nestedMatch "mengubah" "mengubah.title" q
  , .nestedMatch "diubah_oleh" "diubah_oleh.title" q
  , .nestedMatch "mencabut" "mencabut.title" q
  , .nestedMatch "dicabut_oleh" "dicabut_oleh.title" q
  , .nestedMatch "melaksanakan_amanat_peraturan" "melaksanakan_amanat_peraturan.title" q
  , .nestedMatch "dilaksanakan_oleh_peraturan_pelaksana"
      "dilaksanakan_oleh_peraturan_pelaksana.title" q ]

/-- The `functions` array of the chat retrieval query
(ChatService.py:248-295): the linear decay on `ditetapkan_tanggal` (origin
now, scale 365d, offset 365d, decay 0.5) and the per-category weight
table. -/
def chatScoreFunctions : List ScoreFunction :=
  [ .linearDecay "ditetapkan_tanggal" 365 365 (1/2)
  , .filterWeight "jenis_bentuk_peraturan" "UNDANG-UNDANG DASAR" (12/5)
  , .filterWeight "jenis_bentuk_peraturan" "KETETAPAN MAJELIS PERMUSYAWARATAN RAKYAT" (11/5)
  , .filterWeight "jenis_bentuk_peraturan" "UNDANG-UNDANG" 2
  , .filterWeight "jenis_bentuk_peraturan" "PERATURAN PEMERINTAH PENGGANTI UNDANG-UNDANG" 2
  , .filterWeight "jenis_bentuk_peraturan" "PERATURAN PEMERINTAH" (9/5)
  , .filterWeight "jenis_bentuk_peraturan" "PERATURAN PRESIDEN" (8/5)
  , .filterWeight "jenis_bentuk_peraturan" "PERATURAN MENTERI" (7/5)
  , .filterWeight "jenis_bentuk_peraturan" "PERATURAN DAERAH" (6/5)
  , .filterWeight "jenis_bentuk_peraturan" "PERATURAN BADAN/LEMBAGA" 1 ]

/-- Embedding of the query built by `search_elasticsearch`
(ChatService.py:172-305): a `function_score` over the should clauses with
the decay and weight functions, combined with `boost_mode = "avg"`. -/
def search_elasticsearch_query (q : String) : EsQuery :=
  .functionScore (chatMatchClauses q) chatScoreFunctions "avg"

/-- Hit list of `search_elasticsearch` (default size 5); the Python
function then projects `content_text[0]` of each hit, which no claim
mentions. -/
def search_elasticsearch_hits (corpus : List EsDoc) (q : String) (size : Nat) :
    List EsDoc :=
  (executeQueryHits (search_elasticsearch_query q) corpus).take size

/-! ## Blob store adapter -/

/-- Embedding of `upload_file` (internal/storage.py:92-104) against a
bucket modelled by its blob-name set.  The `blob.exists()` duplicate guard
in the source is commented out, and `blob.upload_from_file` overwrites an
existing object, so the function never raises for a name collision: it
uploads and returns the resource URL unconditionally.  The `Except` layer
records that no error path remains. -/
def upload_file (cfg : Config) (bucketBlobs : List String) (blobName : String) :
    Except HErr (String × List String) :=
  .ok (gcsUrl cfg blobName,
    if blobName ∈ bucketBlobs then bucketBlobs else bucketBlobs ++ [blobName])

/-! ## Bookmark service -/

/-- One row of the `legal_document_bookmark` table
(models/LegalDocumentBookmarkModel.py): the surrogate primary key is not
needed by the modelled operation. -/
structure Bookmark where
  user_id : Nat
  document_id : String
deriving DecidableEq, Repr

/-- Embedding of `get_delete_legal_document_bookmark_by_document_id`
(LegalDocumentService.py:896-915): select the first row matching the user
and document.  When none exists, `session.delete(None)` raises
`UnmappedInstanceError`, a subclass of `SQLAlchemyError`, which the handler
turns into an `HTTPException` with status 422 before anything is committed;
otherwise the row is deleted and `{"ok": True}` returned.  The result is
the table after the call paired with the response. -/
def get_delete_legal_document_bookmark_by_document_id (table : List Bookmark)
    (userId : Nat) (docId : String) : List Bookmark × Except HErr Bool :=
  match table.find? (fun b => b.user_id == userId && b.document_id == docId) with
  | none => (table, .error ⟨422, "Class builtins.NoneType is not mapped"⟩)
  | some b => (table.erase b, .ok true)

/-! ## Concrete fixtures used by witnesses and counterexamples -/

/-- Deployment values as they appear in the repository docstrings. -/
def cfg0 : Config :=
  ⟨"https://storage.cloud.google.com", "lexin-ta.appspot.com", "legal_document"⟩

/-- An empty, healthy search index. -/
def es0 : EsState := ⟨[], none⟩

/-- A search index whose write call fails with a non-422 upstream error. -/
def esWrite500 : EsState := ⟨[], some ⟨500, "upstream failure"⟩⟩

/-- A one-page, one-word PDF whose single line is uppercase. -/
def pdfA : Pdf := some [[⟨0, 10, "ISI"⟩]]

/-- A one-page, one-word PDF whose single line is lowercase. -/
def pdfB : Pdf := some [[⟨0, 10, "isi"⟩]]

/-- Archive with the two parseable members. -/
def zipAB : Zip := [("a.pdf", pdfA), ("b.pdf", pdfB)]

/-- Archive whose only member is not a parseable PDF. -/
def zipMalformed : Zip := [("a.pdf", none)]

/-- Manifest record owning both members of `zipAB`. -/
def metaAB : Metadata := ⟨some "doc-ab", some "Dokumen AB", ["a.pdf", "b.pdf"]⟩

/-- Manifest record owning only `a.pdf`. -/
def metaA : Metadata := ⟨some "doc-a", some "Dokumen A", ["a.pdf"]⟩

/-- Manifest record missing the required `id` field, so that
`LegalDocumentCreate` validation fails after the files were uploaded. -/
def metaNoId : Metadata := ⟨none, some "Dokumen A", ["a.pdf"]⟩

/-- Parse results of the two members of `zipAB`. -/
def prA : ParseEntry := ⟨"a.pdf", ["title"], ["ISI"]⟩

/-- Parse result of the lowercase member. -/
def prB : ParseEntry := ⟨"b.pdf", ["paragraph"], ["isi"]⟩

/-- A ministerial-tier document matching the query with base score 1. -/
def docMenteri : EsDoc := ⟨"permen-1", "PERATURAN MENTERI", "Berlaku", 0, 1, []⟩

/-- A constitution-tier document matching the query with base score 1. -/
def docUUD : EsDoc := ⟨"uud-1945", "UNDANG-UNDANG DASAR", "Berlaku", 0, 1, []⟩

/-! ## Helper lemmas -/

/-- Folding the paired appends over a line list appends the classified
lines to the first accumulator and the raw lines to the second. -/
theorem foldl_addLine (L : List String) (acc : ExtractResult) :
    L.foldl addLine acc = ⟨acc.content_type ++ L.map classifyLine, acc.content_text ++ L⟩ := by
  induction L generalizing acc with
  | nil => simp
  | cons t ts ih =>
    simp only [List.foldl_cons, ih, addLine, List.map_cons]
    exact congrArg₂ ExtractResult.mk (by simp) (by simp)

/-- Closed form of `extract_text_pdf` on a parsed stream: the raw line
texts of the page loop and their classifications. -/
theorem extract_some_eq (ps : List Page) :
    extract_text_pdf (some ps) = ⟨(extractLoop ps).map classifyLine, extractLoop ps⟩ := by
  simp [extract_text_pdf, foldl_addLine]

/-- The two output lists of the extractor always have equal length. -/
theorem extract_lengths (pdf : Pdf) :
    (extract_text_pdf pdf).content_type.length = (extract_text_pdf pdf).content_text.length := by
  cases pdf with
  | none => rfl
  | some ps => simp [extract_some_eq]

/-- With an empty page present, the page loop stops at the first one: the
`words[0]` subscript raises and the handler drops everything after it. -/
theorem extractLoop_takeWhile (ps : List Page) (h : [] ∈ ps) :
    extractLoop ps = extractLoop (ps.takeWhile (fun p => !p.isEmpty)) := by
  induction ps with
  | nil => cases h
  | cons p ps ih =>
    cases p with
    | nil => simp [extractLoop, List.takeWhile_cons]
    | cons w ws =>
      have hps : [] ∈ ps := by
        cases h with
        | tail _ hmem => exact hmem
      simp [extractLoop, List.takeWhile_cons, ih hps]

/-- The `classifyLine` result is `"title"` exactly when the regex
matches. -/
theorem classifyLine_eq_title (s : String) :
    classifyLine s = "title" ↔ is_all_uppercase_sentence s = true := by
  by_cases h : is_all_uppercase_sentence s = true
  · simp [classifyLine, h]
  · simp only [classifyLine, if_neg h]
    constructor
    · intro hh
      exact absurd hh (by decide)
    · intro hh
      exact absurd hh h

/-- Unfolding of the character class `[A-Z0-9\W]` into the claim's
vocabulary: uppercase, digit, or a non-word character (not alphanumeric
and not an underscore). -/
theorem upperClassChar_iff (c : Char) :
    upperClassChar c = true ↔
      (upperAZ c = true ∨ digit09 c = true ∨ (c.isAlphanum = false ∧ c ≠ '_')) := by
  simp only [upperClassChar, pythonWordChar, Bool.or_eq_true, Bool.not_eq_true',
    Bool.or_eq_false_iff, beq_eq_false_iff_ne, or_assoc]

/-! ## C6: title classification -/

/-- C6 counterexample: the string `"A_"` satisfies the claim's criterion —
it contains an `A`–`Z` character and every character is an uppercase
letter, a digit, or a non-alphabetic symbol (underscore is not
alphabetic) — yet the code classifies it `"paragraph"`, because the regex
class `\W` excludes the underscore (a word character). -/
theorem title_pattern_counterexample :
    classifyLine "A_" = "paragraph" ∧
      (∃ c ∈ "A_".data, upperAZ c = true) ∧
      (∀ c ∈ "A_".data, upperAZ c = true ∨ digit09 c = true ∨ c.isAlpha = false) := by
  refine ⟨by decide, ⟨'A', by decide, by decide⟩, by decide⟩

/-- C6 amended: a line is classified `"title"` iff it contains an `A`–`Z`
character reachable from the start of the text without crossing a newline,
and every character is an uppercase ASCII letter, an ASCII digit, or a
non-word symbol — i.e. neither alphanumeric nor an underscore (so a line
with a lowercase letter, or with an underscore, is `"paragraph"`). -/
theorem title_pattern_amended (s : String) :
    classifyLine s = "title" ↔
      ((∃ c ∈ s.data.takeWhile (fun c => c != '\n'), upperAZ c = true) ∧
        ∀ c ∈ s.data, upperAZ c = true ∨ digit09 c = true ∨
          (c.isAlphanum = false ∧ c ≠ '_')) := by
  rw [classifyLine_eq_title]
  unfold is_all_uppercase_sentence
  rw [Bool.and_eq_true, List.any_eq_true, List.all_eq_true]
  constructor
  · rintro ⟨⟨c, hc, hcu⟩, hall⟩
    exact ⟨⟨c, hc, hcu⟩, fun c hc => (upperClassChar_iff c).mp (hall c hc)⟩
  · rintro ⟨⟨c, hc, hcu⟩, hall⟩
    exact ⟨⟨c, hc, hcu⟩, fun c hc => (upperClassChar_iff c).mpr (hall c hc)⟩

/-! ## C10: pages after an empty page are dropped -/

/-- C10: extraction of a PDF containing a page with zero word tokens does
not raise — it returns the ordinary result pair — and that result holds
exactly the lines of the pages strictly before the first empty page
(`takeWhile` keeps precisely those); all later pages are silently
dropped. -/
theorem empty_page_truncation (ps : List Page) (h : [] ∈ ps) :
    extract_text_pdf (some ps) = extract_text_pdf (some (ps.takeWhile (fun p => !p.isEmpty))) ∧
      (extract_text_pdf (some ps)).content_text =
        extractLoop (ps.takeWhile (fun p => !p.isEmpty)) ∧
      (extract_text_pdf (some ps)).content_type =
        (extractLoop (ps.takeWhile (fun p => !p.isEmpty))).map classifyLine := by
  have ht := extractLoop_takeWhile ps h
  rw [extract_some_eq, extract_some_eq, ht]
  exact ⟨rfl, rfl, rfl⟩

/-- C10 witness: a three-page stream whose middle page is empty yields
exactly the first page's line. -/
theorem empty_page_truncation_witness :
    ([] ∈ [[(⟨0, 10, "BAB"⟩ : Word)], [], [⟨0, 10, "isi"⟩]]) ∧
      (extract_text_pdf (some [[(⟨0, 10, "BAB"⟩ : Word)], [], [⟨0, 10, "isi"⟩]]) =
          extract_text_pdf (some
            ([[(⟨0, 10, "BAB"⟩ : Word)], [], [⟨0, 10, "isi"⟩]].takeWhile (fun p => !p.isEmpty))) ∧
        (extract_text_pdf (some [[(⟨0, 10, "BAB"⟩ : Word)], [], [⟨0, 10, "isi"⟩]])).content_text =
          extractLoop ([[(⟨0, 10, "BAB"⟩ : Word)], [], [⟨0, 10, "isi"⟩]].takeWhile
            (fun p => !p.isEmpty)) ∧
        (extract_text_pdf (some [[(⟨0, 10, "BAB"⟩ : Word)], [], [⟨0, 10, "isi"⟩]])).content_type =
          (extractLoop ([[(⟨0, 10, "BAB"⟩ : Word)], [], [⟨0, 10, "isi"⟩]].takeWhile
            (fun p => !p.isEmpty))).map classifyLine) :=
  ⟨by decide, empty_page_truncation _ (by decide)⟩

/-! ## C3: extractor failure policy -/

/-- Parsing a record all of whose files are present but unparseable
succeeds with empty extraction lists for every file. -/
theorem mapM_parse_malformed (z : Zip) (fs : List String)
    (h : ∀ f ∈ fs, zipLookup z f = some none) :
    parse_files_in_metadata z fs = .ok (fs.map (fun f => ⟨f, [], []⟩)) := by
  induction fs with
  | nil => rfl
  | cons a l ih =>
    have ha : zipLookup z a = some none := h a (List.mem_cons_self a l)
    have hl := ih (fun f hf => h f (List.mem_cons_of_mem a hf))
    unfold parse_files_in_metadata parse_single_file
    rw [ha, hl]
    rfl

/-- C3 counterexample: on a byte stream `fitz.open` rejects, the extractor
returns the normal empty result instead of failing, and ingesting a
document whose only file is such a stream uploads the file and records the
document as succeeded — no failure is recorded and an upload is
attempted. -/
theorem extractor_failure_counterexample :
    extract_text_pdf none = ⟨[], []⟩ ∧
      (upload_legal_document_helper cfg0 es0 metaA zipMalformed).response.is_success = true ∧
      (upload_legal_document_helper cfg0 es0 metaA zipMalformed).uploadedBlobs =
        ["legal_document/a.pdf"] ∧
      (upload_legal_document_helper cfg0 es0 metaA zipMalformed).response.message =
        "Metadata upload succeeded." := by
  exact ⟨rfl, by decide, by decide, by decide⟩

/-- C3 amended: the extractor never fails — an unparseable byte stream
yields the normal result with both lists empty — and ingestion does not
abort such a document: all its files are uploaded and, when indexing
succeeds, the document is recorded successful (with empty content), no
cleanup ever being triggered by extraction. -/
theorem extractor_failure_amended (cfg : Config) (es : EsState) (meta : Metadata)
    (z : Zip) (slug titleStr : String)
    (hfiles : ∀ f ∈ meta.filenames, zipLookup z f = some none)
    (hid : meta.id = some slug) (htitle : meta.title = some titleStr)
    (hdup : slug ∉ es.existingIds) (hwrite : es.writeError = none) :
    extract_text_pdf none = ⟨[], []⟩ ∧
      (upload_legal_document_helper cfg es meta z).response.is_success = true ∧
      (upload_legal_document_helper cfg es meta z).uploadedBlobs =
        meta.filenames.map (fun f => cfg.folder ++ "/" ++ f) ∧
      (upload_legal_document_helper cfg es meta z).deletedBlobs = [] := by
  have hp := mapM_parse_malformed z meta.filenames hfiles
  refine ⟨rfl, ?_, ?_, ?_⟩ <;>
    simp [upload_legal_document_helper, hp, upload_files_to_gcs_in_parallel,
      uploadArraysOf, documentDataOf, index_legal_document, validateDocument,
      hid, htitle, hdup, hwrite, upload_single_file_to_gcs,
      build_succeeded_upload_response, List.map_map, Function.comp]

/-- C3 amended witness: the concrete malformed archive is ingested as a
success with its blob uploaded. -/
theorem extractor_failure_amended_witness :
    ((∀ f ∈ metaA.filenames, zipLookup zipMalformed f = some none) ∧
      metaA.id = some "doc-a" ∧ metaA.title = some "Dokumen A" ∧
      "doc-a" ∉ es0.existingIds ∧ es0.writeError = none) ∧
    (extract_text_pdf none = ⟨[], []⟩ ∧
      (upload_legal_document_helper cfg0 es0 metaA zipMalformed).response.is_success = true ∧
      (upload_legal_document_helper cfg0 es0 metaA zipMalformed).uploadedBlobs =
        metaA.filenames.map (fun f => cfg0.folder ++ "/" ++ f) ∧
      (upload_legal_document_helper cfg0 es0 metaA zipMalformed).deletedBlobs = []) :=
  ⟨⟨by decide, rfl, rfl, by decide, rfl⟩,
    extractor_failure_amended cfg0 es0 metaA zipMalformed "doc-a" "Dokumen A"
      (by decide) rfl rfl (by decide) rfl⟩

/-! ## C8: blob upload on a name collision -/

/-- C8 evaluation at the failing input: uploading a blob whose name is
already present in the bucket returns the resource URL normally — the
duplicate guard is commented out in the source, so no error is raised and
the object is silently overwritten (the bucket keeps the same name set). -/
theorem upload_overwrite_eval :
    upload_file cfg0 ["legal_document/a.pdf"] "legal_document/a.pdf" =
      .ok ("https://storage.cloud.google.com/lexin-ta.appspot.com/legal_document/a.pdf",
        ["legal_document/a.pdf"]) := by rfl

/-! ## C9: deleting a nonexistent bookmark -/

/-- C9 counterexample: deleting a bookmark that was never created returns
an `HTTPException` with status 422 (from `session.delete(None)`), not a
successful no-op. -/
theorem bookmark_delete_counterexample :
    (∀ b ∈ ([] : List Bookmark), ¬(b.user_id = 1 ∧ b.document_id = "doc-a")) ∧
      get_delete_legal_document_bookmark_by_document_id [] 1 "doc-a" =
        ([], .error ⟨422, "Class builtins.NoneType is not mapped"⟩) := by
  exact ⟨by simp, rfl⟩

/-- C9 amended: when no bookmark row matches the user and document, the
delete raises a 422 error (the `session.delete(None)` slip surfaces as an
`HTTPException`), and the bookmark table is left unchanged. -/
theorem bookmark_delete_amended (table : List Bookmark) (u : Nat) (d : String)
    (h : ∀ b ∈ table, ¬(b.user_id = u ∧ b.document_id = d)) :
    get_delete_legal_document_bookmark_by_document_id table u d =
      (table, .error ⟨422, "Class builtins.NoneType is not mapped"⟩) := by
  have hf : table.find? (fun b => b.user_id == u && b.document_id == d) = none := by
    rw [List.find?_eq_none]
    intro b hb
    simpa [Bool.and_eq_true] using h b hb
  unfold get_delete_legal_document_bookmark_by_document_id
  rw [hf]

/-- C9 amended witness: a table holding another user's bookmark is
untouched and the call errors with 422. -/
theorem bookmark_delete_amended_witness :
    (∀ b ∈ [(⟨2, "other-doc"⟩ : Bookmark)], ¬(b.user_id = 1 ∧ b.document_id = "doc-a")) ∧
      get_delete_legal_document_bookmark_by_document_id [⟨2, "other-doc"⟩] 1 "doc-a" =
        ([⟨2, "other-doc"⟩], .error ⟨422, "Class builtins.NoneType is not mapped"⟩) :=
  ⟨by decide, bookmark_delete_amended [⟨2, "other-doc"⟩] 1 "doc-a" (by decide)⟩

/-! ## C5: files without metadata -/

/-- C5 evaluation at the failing input: an archive holding `a.pdf` and
`b.pdf` whose manifest only references `a.pdf` yields `b.pdf` in the
failed partition as a bare filename string — the call
`failed_upload_list.extend({filename: "No metadata detected."})` iterates
the dict's keys, so the constructed reason is discarded — while the
well-formed document still appears in the succeeded partition. -/
theorem no_metadata_reason_eval :
    parse_legal_document_and_metadata_zip cfg0 es0 ["a.pdf", "b.pdf"] [metaA] zipAB =
      ⟨[.bareName "b.pdf"],
        [⟨some "doc-a", "Dokumen A", ["a.pdf"],
          some ["https://storage.cloud.google.com/lexin-ta.appspot.com/legal_document/a.pdf"],
          true, "Metadata upload succeeded."⟩]⟩ := by decide

/-! ## C4: compensating deletes after an index failure -/

/-- C4 counterexample: a record whose metadata fails schema validation (no
`id`) is an index-step failure that is not a duplicate-id error (the index
is empty), occurring after the document's file was uploaded — yet no
compensating delete is issued, because the code branches on the HTTP
status 422, which validation failures share with duplicate ids. -/
theorem index_failure_cleanup_counterexample :
    es0.existingIds = [] ∧
      (upload_legal_document_helper cfg0 es0 metaNoId zipAB).response.is_success = false ∧
      (upload_legal_document_helper cfg0 es0 metaNoId zipAB).response.message =
        "422: validation error for LegalDocumentCreate" ∧
      (upload_legal_document_helper cfg0 es0 metaNoId zipAB).uploadedBlobs =
        ["legal_document/a.pdf"] ∧
      (upload_legal_document_helper cfg0 es0 metaNoId zipAB).deletedBlobs = [] := by
  exact ⟨rfl, by decide, by decide, by decide, by decide⟩

/-- C4 amended: when the index step fails after the files were uploaded,
the document is recorded failed with the exception's message; a
compensating delete of every uploaded blob is issued exactly when the
failure status is not 422 — the 422 branch (duplicate-id, but also schema
validation) skips the cleanup. -/
theorem index_failure_cleanup_amended (cfg : Config) (es : EsState) (meta : Metadata)
    (z : Zip) (pr : List ParseEntry) (e : HErr)
    (hp : parse_files_in_metadata z meta.filenames = .ok pr)
    (hi : index_legal_document es
        (documentDataOf meta (upload_files_to_gcs_in_parallel cfg pr)) = .error e) :
    (upload_legal_document_helper cfg es meta z).response.is_success = false ∧
      (upload_legal_document_helper cfg es meta z).response.message = httpExceptionStr e ∧
      (upload_legal_document_helper cfg es meta z).uploadedBlobs =
        (upload_files_to_gcs_in_parallel cfg pr).blob_list ∧
      (upload_legal_document_helper cfg es meta z).deletedBlobs =
        (if e.status = 422 then []
          else (upload_files_to_gcs_in_parallel cfg pr).blob_list) := by
  unfold upload_legal_document_helper
  rw [hp]
  by_cases h422 : e.status = 422 <;>
    simp [hi, h422, build_failed_upload_response, cleanup_failed_upload]

/-- C4 amended witness: a non-422 write failure after upload triggers the
compensating delete of the uploaded blob, while recording the document
failed. -/
theorem index_failure_cleanup_amended_witness :
    (parse_files_in_metadata zipAB metaA.filenames = .ok [prA] ∧
      index_legal_document esWrite500
        (documentDataOf metaA (upload_files_to_gcs_in_parallel cfg0 [prA])) =
        .error ⟨500, "upstream failure"⟩) ∧
    ((upload_legal_document_helper cfg0 esWrite500 metaA zipAB).response.is_success = false ∧
      (upload_legal_document_helper cfg0 esWrite500 metaA zipAB).response.message =
        httpExceptionStr ⟨500, "upstream failure"⟩ ∧
      (upload_legal_document_helper cfg0 esWrite500 metaA zipAB).uploadedBlobs =
        (upload_files_to_gcs_in_parallel cfg0 [prA]).blob_list ∧
      (upload_legal_document_helper cfg0 esWrite500 metaA zipAB).deletedBlobs =
        (if (500 : Nat) = 422 then []
          else (upload_files_to_gcs_in_parallel cfg0 [prA]).blob_list)) :=
  ⟨⟨rfl, rfl⟩,
    index_failure_cleanup_amended cfg0 esWrite500 metaA zipAB [prA]
      ⟨500, "upstream failure"⟩ rfl rfl⟩

/-! ## C2: index alignment of the assembled payload -/

/-- Zipping the three projections of one list recovers the projected
triples. -/
theorem zip_three_projections (l : List SingleUpload) :
    (l.map (fun u => u.gcs_url)).zip
        ((l.map (fun u => u.content_type)).zip (l.map (fun u => u.content_text))) =
      l.map (fun u => (u.gcs_url, (u.content_type, u.content_text))) := by
  induction l with
  | nil => rfl
  | cons a l ih => simp [ih]

/-- C2 counterexample: with the manifest order `["a.pdf", "b.pdf"]` and the
parse tasks completing in the order `[prB, prA]` (a permutation of the
submission-order results), the assembled payload has `"a.pdf"` at index 0
of `filenames` but the resource URL of `"b.pdf"` at index 0 of
`resource_urls`: no keying on filename restores the alignment. -/
theorem payload_alignment_counterexample :
    parse_files_in_metadata zipAB metaAB.filenames = .ok [prA, prB] ∧
      [prB, prA].Perm [prA, prB] ∧
      (documentDataOf metaAB
          (uploadArraysOf ([prB, prA].map (upload_single_file_to_gcs cfg0)))).filenames.head? =
        some "a.pdf" ∧
      (documentDataOf metaAB
          (uploadArraysOf ([prB, prA].map (upload_single_file_to_gcs cfg0)))).resource_urls.head? =
        some "https://storage.cloud.google.com/lexin-ta.appspot.com/legal_document/b.pdf" ∧
      ("https://storage.cloud.google.com/lexin-ta.appspot.com/legal_document/b.pdf" : String) ≠
        gcsUrl cfg0 (cfg0.folder ++ "/" ++ "a.pdf") := by
  exact ⟨rfl, by decide, rfl, rfl, by decide⟩

/-- C2 amended: regardless of the completion orders of the parse and
upload task pools, entry `i` of `resource_urls`, `content_type` and
`content_text` all describe one and the same file, and as a multiset these
per-file triples are exactly those of the manifest record's files; the
arrays are however in task completion order — nothing keys results on
filename — so index `i` need not correspond to `filenames[i]`. -/
theorem payload_alignment_amended (cfg : Config) (pr0 pr : List ParseEntry)
    (us : List SingleUpload) (h1 : pr.Perm pr0)
    (h2 : us.Perm (pr.map (upload_single_file_to_gcs cfg))) :
    ((uploadArraysOf us).resource_urls.zip
        (((uploadArraysOf us).content_type_list).zip
          ((uploadArraysOf us).content_text_list))).Perm
      (pr0.map (fun p =>
        (gcsUrl cfg (cfg.folder ++ "/" ++ p.filename),
          (p.content_type, p.content_text)))) := by
  show ((us.map (fun u => u.gcs_url)).zip
      ((us.map (fun u => u.content_type)).zip (us.map (fun u => u.content_text)))).Perm _
  rw [zip_three_projections]
  have h3 := h2.map (fun u => (u.gcs_url, (u.content_type, u.content_text)))
  rw [List.map_map] at h3
  exact h3.trans (h1.map _)

/-- C2 amended witness: the swapped completion order yields the aligned
triples as a permutation. -/
theorem payload_alignment_amended_witness :
    ([prB, prA].Perm [prA, prB] ∧
      ([prB, prA].map (upload_single_file_to_gcs cfg0)).Perm
        ([prB, prA].map (upload_single_file_to_gcs cfg0))) ∧
    ((uploadArraysOf ([prB, prA].map (upload_single_file_to_gcs cfg0))).resource_urls.zip
        (((uploadArraysOf ([prB, prA].map
            (upload_single_file_to_gcs cfg0))).content_type_list).zip
          ((uploadArraysOf ([prB, prA].map
            (upload_single_file_to_gcs cfg0))).content_text_list))).Perm
      ([prA, prB].map (fun p =>
        (gcsUrl cfg0 (cfg0.folder ++ "/" ++ p.filename),
          (p.content_type, p.content_text)))) :=
  ⟨⟨by decide, List.Perm.refl _⟩,
    payload_alignment_amended cfg0 [prA, prB] [prB, prA]
      ([prB, prA].map (upload_single_file_to_gcs cfg0)) (by decide) (List.Perm.refl _)⟩

/-! ## C7: array length invariants of the indexed payload -/

/-- A successful parse yields one entry per metadata filename. -/
theorem parse_files_ok_length (z : Zip) (fs : List String) (pr : List ParseEntry)
    (h : parse_files_in_metadata z fs = .ok pr) : pr.length = fs.length := by
  induction fs generalizing pr with
  | nil =>
    cases h
    rfl
  | cons a l ih =>
    unfold parse_files_in_metadata at h
    cases hfa : parse_single_file z a with
    | error e => rw [hfa] at h; cases h
    | ok p =>
      rw [hfa] at h
      cases hl : parse_files_in_metadata z l with
      | error e => rw [hl] at h; cases h
      | ok ps =>
        rw [hl] at h
        cases h
        simp [ih ps hl]

/-- Every entry of a successful parse is the result of parsing one of the
metadata filenames. -/
theorem parse_files_ok_mem (z : Zip) (fs : List String) (pr : List ParseEntry)
    (h : parse_files_in_metadata z fs = .ok pr) :
    ∀ p ∈ pr, ∃ f ∈ fs, parse_single_file z f = .ok p := by
  induction fs generalizing pr with
  | nil =>
    cases h
    intro p hp
    cases hp
  | cons a l ih =>
    unfold parse_files_in_metadata at h
    cases hfa : parse_single_file z a with
    | error e => rw [hfa] at h; cases h
    | ok p0 =>
      rw [hfa] at h
      cases hl : parse_files_in_metadata z l with
      | error e => rw [hl] at h; cases h
      | ok ps =>
        rw [hl] at h
        cases h
        intro p hp
        cases hp with
        | head => exact ⟨a, List.mem_cons_self a l, hfa⟩
        | tail _ hmem =>
          obtain ⟨f, hf, hpf⟩ := ih ps hl p hmem
          exact ⟨f, List.mem_cons_of_mem a hf, hpf⟩

/-- A successfully parsed entry carries equal-length classification and
text lists (the extractor appends to both in lockstep). -/
theorem parse_single_ok_lengths (z : Zip) (f : String) (p : ParseEntry)
    (h : parse_single_file z f = .ok p) :
    p.content_type.length = p.content_text.length := by
  unfold parse_single_file at h
  cases hz : zipLookup z f with
  | none => rw [hz] at h; cases h
  | some pdf =>
    rw [hz] at h
    cases h
    exact extract_lengths pdf

/-- C7: for a document whose files all parsed, whatever completion orders
the parse pool and the upload pool deliver, the assembled payload has
`filenames`, `resource_urls`, `content_type` and `content_text` all of
length N (the number of metadata filenames), and at every index the
per-file classification and text lists have equal length. -/
theorem payload_lengths_invariant (cfg : Config) (meta : Metadata) (z : Zip)
    (pr0 pr : List ParseEntry) (us : List SingleUpload)
    (hok : parse_files_in_metadata z meta.filenames = .ok pr0)
    (h1 : pr.Perm pr0) (h2 : us.Perm (pr.map (upload_single_file_to_gcs cfg))) :
    (documentDataOf meta (uploadArraysOf us)).filenames.length = meta.filenames.length ∧
      (documentDataOf meta (uploadArraysOf us)).resource_urls.length =
        meta.filenames.length ∧
      (documentDataOf meta (uploadArraysOf us)).content_type.length =
        meta.filenames.length ∧
      (documentDataOf meta (uploadArraysOf us)).content_text.length =
        meta.filenames.length ∧
      ∀ i : Nat,
        (((documentDataOf meta (uploadArraysOf us)).content_type.get? i).map
            List.length) =
          (((documentDataOf meta (uploadArraysOf us)).content_text.get? i).map
            List.length) := by
  have hlen : us.length = meta.filenames.length := by
    rw [h2.length_eq, List.length_map, h1.length_eq, parse_files_ok_length z _ pr0 hok]
  have hu : ∀ u ∈ us, u.content_type.length = u.content_text.length := by
    intro u hmem
    have : u ∈ pr.map (upload_single_file_to_gcs cfg) := h2.mem_iff.mp hmem
    obtain ⟨p, hp, rfl⟩ := List.mem_map.mp this
    have hp0 : p ∈ pr0 := h1.mem_iff.mp hp
    obtain ⟨f, _, hpf⟩ := parse_files_ok_mem z _ pr0 hok p hp0
    simpa [upload_single_file_to_gcs] using parse_single_ok_lengths z f p hpf
  refine ⟨rfl, ?_, ?_, ?_, ?_⟩
  · show (us.map (fun u => u.gcs_url)).length = _
    rw [List.length_map, hlen]
  · show (us.map (fun u => u.content_type)).length = _
    rw [List.length_map, hlen]
  · show (us.map (fun u => u.content_text)).length = _
    rw [List.length_map, hlen]
  · intro i
    show ((us.map (fun u => u.content_type)).get? i).map List.length =
      ((us.map (fun u => u.content_text)).get? i).map List.length
    rw [List.get?_map, List.get?_map]
    cases h : us.get? i with
    | none => rfl
    | some u => simp [hu u (List.get?_mem h)]

/-- C7 witness: the two-file document with swapped parse completion order
still satisfies every length invariant. -/
theorem payload_lengths_invariant_witness :
    (parse_files_in_metadata zipAB metaAB.filenames = .ok [prA, prB] ∧
      [prB, prA].Perm [prA, prB] ∧
      ([prB, prA].map (upload_single_file_to_gcs cfg0)).Perm
        ([prB, prA].map (upload_single_file_to_gcs cfg0))) ∧
    ((documentDataOf metaAB (uploadArraysOf ([prB, prA].map
          (upload_single_file_to_gcs cfg0)))).filenames.length = metaAB.filenames.length ∧
      (documentDataOf metaAB (uploadArraysOf ([prB, prA].map
          (upload_single_file_to_gcs cfg0)))).resource_urls.length =
        metaAB.filenames.length ∧
      (documentDataOf metaAB (uploadArraysOf ([prB, prA].map
          (upload_single_file_to_gcs cfg0)))).content_type.length =
        metaAB.filenames.length ∧
      (documentDataOf metaAB (uploadArraysOf ([prB, prA].map
          (upload_single_file_to_gcs cfg0)))).content_text.length =
        metaAB.filenames.length ∧
      ∀ i : Nat,
        (((documentDataOf metaAB (uploadArraysOf ([prB, prA].map
            (upload_single_file_to_gcs cfg0)))).content_type.get? i).map List.length) =
          (((documentDataOf metaAB (uploadArraysOf ([prB, prA].map
            (upload_single_file_to_gcs cfg0)))).content_text.get? i).map List.length)) :=
  ⟨⟨rfl, by decide, List.Perm.refl _⟩,
    payload_lengths_invariant cfg0 metaAB zipAB [prA, prB] [prB, prA]
      ([prB, prA].map (upload_single_file_to_gcs cfg0)) rfl (by decide)
      (List.Perm.refl _)⟩

/-! ## C1: relevance scoring of the search endpoint -/

/-- C1 counterexample: the Search endpoint builds a plain `query_string`
query (no scoring function at all), and on a corpus where a
ministerial-tier and a constitution-tier document both match with equal
base score, the first page of hits ranks the ministerial document first —
the constitution-tier document is not promoted. -/
theorem search_scoring_claim_counterexample :
    (search_legal_document_parameters "UNDANG-UNDANG DASAR" 1 10 none none
        (some "_score")).query = .queryString "UNDANG-UNDANG DASAR" ["*"] ∧
      (search_legal_document [docMenteri, docUUD] "UNDANG-UNDANG DASAR" 1 10 none none
          (some "_score")).hits.head? = some docMenteri ∧
      docMenteri ≠ docUUD := by
  exact ⟨rfl, by decide, by decide⟩

/-- Chat-query score of the constitution-tier document: decay 1 (enacted
now) times weight 2.4, averaged with the base score 1. -/
theorem chat_score_docUUD :
    scoreUnder (search_elasticsearch_query "UNDANG-UNDANG DASAR") docUUD =
      (1 + 12 / 5) / 2 := by
  norm_num +decide [scoreUnder, search_elasticsearch_query, functionsValue,
    chatScoreFunctions, scoreFunctionValue, termMatches, linearDecayValue, docUUD]

/-- Chat-query score of the ministerial document: decay 1 times weight 1.4,
averaged with the base score 1. -/
theorem chat_score_docMenteri :
    scoreUnder (search_elasticsearch_query "UNDANG-UNDANG DASAR") docMenteri =
      (1 + 7 / 5) / 2 := by
  norm_num +decide [scoreUnder, search_elasticsearch_query, functionsValue,
    chatScoreFunctions, scoreFunctionValue, termMatches, linearDecayValue, docMenteri]

/-- Under the chat retrieval query the constitution-tier document is ranked
above the ministerial one at equal base score. -/
theorem chat_ranking_eval :
    (search_elasticsearch_hits [docMenteri, docUUD] "UNDANG-UNDANG DASAR" 5).head? =
      some docUUD := by
  have hu := chat_score_docUUD
  have hm := chat_score_docMenteri
  have h1 : matchesQuery docMenteri = true := by decide
  have h2 : matchesQuery docUUD = true := by decide
  simp only [search_elasticsearch_hits, executeQueryHits, List.filter_cons,
    List.filter_nil, h1, h2, if_true, sortHitsDesc, List.foldr_cons,
    List.foldr_nil, insertHitDesc, hu, hm]
  rw [if_neg (by norm_num)]
  rfl

/-- C1 amended: the decay-and-weight scoring function exists only in the
chat retrieval query built by `search_elasticsearch`: a `function_score`
whose functions are the linear time-decay on the enactment date (origin
now, scale 365d, offset 365d, decay 0.5) and the fixed per-category weight
table (2.4, 2.2, 2.0, 2.0, 1.8, 1.6, 1.4, 1.2, 1.0), combined with the
base should-match score by averaging (`boost_mode: "avg"`); under that
query a constitution-tier document outranks a ministerial one at equal
base score.  The legal-document Search endpoint instead scores every hit
by the bare `query_string` match. -/
theorem search_scoring_amended :
    (∀ (q : String) (page size : Nat) (jenis : Option (List String))
        (status sort : Option String),
      (search_legal_document_parameters q page size jenis status sort).query =
        .queryString q ["*"]) ∧
    (∀ (q : String) (d : EsDoc), scoreUnder (.queryString q ["*"]) d = d.baseScore) ∧
    (∀ q : String, search_elasticsearch_query q =
      .functionScore (chatMatchClauses q)
        [ .linearDecay "ditetapkan_tanggal" 365 365 (1/2),
          .filterWeight "jenis_bentuk_peraturan" "UNDANG-UNDANG DASAR" (12/5),
          .filterWeight "jenis_bentuk_peraturan"
            "KETETAPAN MAJELIS PERMUSYAWARATAN RAKYAT" (11/5),
          .filterWeight "jenis_bentuk_peraturan" "UNDANG-UNDANG" 2,
          .filterWeight "jenis_bentuk_peraturan"
            "PERATURAN PEMERINTAH PENGGANTI UNDANG-UNDANG" 2,
          .filterWeight "jenis_bentuk_peraturan" "PERATURAN PEMERINTAH" (9/5),
          .filterWeight "jenis_bentuk_peraturan" "PERATURAN PRESIDEN" (8/5),
          .filterWeight "jenis_bentuk_peraturan" "PERATURAN MENTERI" (7/5),
          .filterWeight "jenis_bentuk_peraturan" "PERATURAN DAERAH" (6/5),
          .filterWeight "jenis_bentuk_peraturan" "PERATURAN BADAN/LEMBAGA" 1 ] "avg") ∧
    scoreUnder (search_elasticsearch_query "UNDANG-UNDANG DASAR") docUUD =
      (1 + 12 / 5) / 2 ∧
    scoreUnder (search_elasticsearch_query "UNDANG-UNDANG DASAR") docMenteri =
      (1 + 7 / 5) / 2 ∧
    (search_elasticsearch_hits [docMenteri, docUUD] "UNDANG-UNDANG DASAR" 5).head? =
      some docUUD := by
  exact ⟨fun _ _ _ _ _ _ => rfl, fun _ _ => rfl, fun _ => rfl,
    chat_score_docUUD, chat_score_docMenteri, chat_ranking_eval⟩

end Lexin
